import Mathlib

/-!
Shallow embedding of `src/index.ts` of the Quidquid repository.

The source file contains two near-identical classes wrapping zod checks:
a `pick*`-named class with a static factory `Quidquid.from`, and a
`get*`-named class exposed through a module-level `from` function.

JavaScript runtime values are modelled by the inductive `JVal`:
`undefined`, `null`, booleans, numbers (with `NaN` as a separate
constructor, since the zod check `z.number()` rejects `NaN` while `NaN` is falsy
and not loosely equal to `undefined`), strings, arrays and plain objects.
JS truthiness (`!value`) and loose nullish equality (`value == undefined`)
are translated as `truthy` and `isNullish`.  The zod validators
`z.string()`, `z.number()`, `z.boolean()`, `z.object(\x7b\x7d)` and
`z.array(...)` are translated as `zString`, `zNumber`, `zBoolean`,
`zObject`, `zArrayOf`: each succeeds exactly on values of the matching
runtime type (`z.object` rejects arrays and `null`; `z.array(inner)`
requires every element to pass `inner`).

Property access `this.quidQuid[key]` is modelled by `JVal.lookup`, which
performs association lookup on objects; theorems about keyed accessors
assume the wrapped value is an object (`isObjB`), matching the claims
(in JS, indexing `null`/`undefined` would throw a TypeError instead).
Thrown `Error`s are modelled as `Except.error` carrying a `PickError`:
the two throw sites of each method are the `missingField` and
`invalidType` constructors, each holding the message string built there.
-/

/-- JavaScript runtime values as inspected by the source. -/
inductive JVal : Type where
  | undefined : JVal
  | null : JVal
  | bool (b : Bool) : JVal
  | num (n : Int) : JVal
  | nan : JVal
  | str (s : String) : JVal
  | arr (elems : List JVal) : JVal
  | obj (fields : List (String × JVal)) : JVal

/-- JS truthiness: the translation of `!value` (negated). -/
def truthy : JVal → Bool
  | .undefined => false
  | .null => false
  | .bool b => b
  | .num n => n != 0
  | .nan => false
  | .str s => s != ""
  | .arr _ => true
  | .obj _ => true

/-- Loose equality with `undefined`: the translation of `value == undefined`,
true exactly on `undefined` and `null`. -/
def isNullish : JVal → Bool
  | .undefined => true
  | .null => true
  | _ => false

/-- Whether a value is a plain object. -/
def isObjB : JVal → Bool
  | .obj _ => true
  | _ => false

/-- zod `z.string()` as a pass/fail check. -/
def zString : JVal → Bool
  | .str _ => true
  | _ => false

/-- zod `z.number()` as a pass/fail check; `NaN` is rejected. -/
def zNumber : JVal → Bool
  | .num _ => true
  | _ => false

/-- zod `z.boolean()` as a pass/fail check. -/
def zBoolean : JVal → Bool
  | .bool _ => true
  | _ => false

/-- zod `z.object(\x7b\x7d)` as a pass/fail check: plain objects only. -/
def zObject : JVal → Bool
  | .obj _ => true
  | _ => false

/-- First-match association lookup in the field list of an object. -/
def lookupField : List (String × JVal) → String → JVal
  | [], _ => .undefined
  | (k, v) :: rest, key => if k = key then v else lookupField rest key

/-- Property access `value[key]`: association lookup on objects,
`undefined` on every other value (claims only read fields of objects). -/
def JVal.lookup : JVal → String → JVal
  | .obj fields, key => lookupField fields key
  | _, _ => .undefined

/-- zod `z.array(inner)` as a pass/fail check. -/
def zArrayOf (inner : JVal → Bool) : JVal → Bool
  | .arr xs => xs.all inner
  | _ => false

/-- The two kinds of `Error` the source throws, with the message built at
the throw site. -/
inductive PickError : Type where
  | missingField (msg : String) : PickError
  | invalidType (msg : String) : PickError
deriving DecidableEq

/-- The `Quidquid` class: a wrapped value and the optional parent key
recorded at construction (the private fields of the source class). -/
structure Quidquid : Type where
  quidQuid : JVal
  parentObjectKey : Option String

/-- `Quidquid.from(quidQuid)`: the static factory (no parent key). -/
def Quidquid.fromVal (v : JVal) : Quidquid :=
  Quidquid.mk v none

/-- `pickFullkeyName(key)`: `key` when `parentObjectKey` is falsy
(absent or the empty string), else `parentObjectKey + "." + key`. -/
def Quidquid.pickFullkeyName (a : Quidquid) (key : String) : String :=
  match a.parentObjectKey with
  | none => key
  | some p => if p = "" then key else p ++ "." ++ key

/-- `pickString(key)`: falsy value ⇒ MissingField; failing `z.string()` ⇒
InvalidType; else the value itself. -/
def Quidquid.pickString (a : Quidquid) (key : String) : Except PickError JVal :=
  let value := a.quidQuid.lookup key
  let fullKeyName := a.pickFullkeyName key
  if !truthy value then .error (.missingField (fullKeyName ++ " must not be empty"))
  else if !zString value then .error (.invalidType (fullKeyName ++ " must be a string"))
  else .ok value

/-- `pickStringOptional(key)`: falsy value ⇒ `undefined`; else delegate to
`pickString`. -/
def Quidquid.pickStringOptional (a : Quidquid) (key : String) :
    Except PickError (Option JVal) :=
  let value := a.quidQuid.lookup key
  if !truthy value then .ok none
  else (a.pickString key).map some

/-- `pickNumber(key)`: nullish value ⇒ MissingField; failing `z.number()` ⇒
InvalidType; else the value itself. -/
def Quidquid.pickNumber (a : Quidquid) (key : String) : Except PickError JVal :=
  let fullKeyName := a.pickFullkeyName key
  let value := a.quidQuid.lookup key
  if isNullish value then .error (.missingField (fullKeyName ++ " must not be empty"))
  else if !zNumber value then .error (.invalidType (fullKeyName ++ " must be a number"))
  else .ok value

/-- `pickNumberOptional(key)`: nullish value ⇒ `undefined`; else delegate to
`pickNumber`. -/
def Quidquid.pickNumberOptional (a : Quidquid) (key : String) :
    Except PickError (Option JVal) :=
  let value := a.quidQuid.lookup key
  if isNullish value then .ok none
  else (a.pickNumber key).map some

/-- `pickBoolean(key)`: nullish value ⇒ MissingField; failing `z.boolean()` ⇒
InvalidType; else the value itself. -/
def Quidquid.pickBoolean (a : Quidquid) (key : String) : Except PickError JVal :=
  let fullKeyName := a.pickFullkeyName key
  let value := a.quidQuid.lookup key
  if isNullish value then .error (.missingField (fullKeyName ++ " must not be empty"))
  else if !zBoolean value then .error (.invalidType (fullKeyName ++ " must be a boolean"))
  else .ok value

/-- `pickBooleanOptional(key)`: nullish value ⇒ `undefined`; else delegate to
`pickBoolean`. -/
def Quidquid.pickBooleanOptional (a : Quidquid) (key : String) :
    Except PickError (Option JVal) :=
  let value := a.quidQuid.lookup key
  if isNullish value then .ok none
  else (a.pickBoolean key).map some

/-- `pickObject(key)`: nullish value ⇒ MissingField; failing `z.object(\x7b\x7d)`
⇒ InvalidType; else `new Quidquid(value, key)` — note the child is
constructed with the bare `key`, not with `fullKeyName`. -/
def Quidquid.pickObject (a : Quidquid) (key : String) : Except PickError Quidquid :=
  let fullKeyName := a.pickFullkeyName key
  let value := a.quidQuid.lookup key
  if isNullish value then .error (.missingField (fullKeyName ++ " must not be empty"))
  else if !zObject value then .error (.invalidType (fullKeyName ++ " must be an object"))
  else .ok (Quidquid.mk value (some key))

/-- `pickObjectOptional(key)`: nullish value ⇒ `undefined`; else delegate to
`pickObject`. -/
def Quidquid.pickObjectOptional (a : Quidquid) (key : String) :
    Except PickError (Option Quidquid) :=
  let value := a.quidQuid.lookup key
  if isNullish value then .ok none
  else (a.pickObject key).map some

/-- `pickStringArray(key?)`: when `key` is falsy (absent or `""`) the
wrapped value itself is validated and messages say `"body"`; otherwise the
field `value[key]` is validated against `z.array(z.string())`. -/
def Quidquid.pickStringArray (a : Quidquid) (key : Option String) :
    Except PickError JVal :=
  let bodyCase :=
    if isNullish a.quidQuid then
      Except.error (PickError.missingField ("body must not be empty"))
    else if !zArrayOf zString a.quidQuid then
      Except.error (PickError.invalidType ("body must be an array of strings"))
    else Except.ok a.quidQuid
  match key with
  | none => bodyCase
  | some k =>
    if k = "" then bodyCase
    else
      let fullKeyName := a.pickFullkeyName k
      let value := a.quidQuid.lookup k
      if isNullish value then
        .error (.missingField (fullKeyName ++ " must not be empty"))
      else if !zArrayOf zString value then
        .error (.invalidType (fullKeyName ++ " must be an array of strings"))
      else .ok value

/-- `pickStringArrayOptional(key)`: nullish field ⇒ `undefined`; else
delegate to `pickStringArray(key)`. -/
def Quidquid.pickStringArrayOptional (a : Quidquid) (key : String) :
    Except PickError (Option JVal) :=
  let value := a.quidQuid.lookup key
  if isNullish value then .ok none
  else (a.pickStringArray (some key)).map some

/-- `pickNumberArray(key?)`: like `pickStringArray` with
`z.array(z.number())`. -/
def Quidquid.pickNumberArray (a : Quidquid) (key : Option String) :
    Except PickError JVal :=
  let bodyCase :=
    if isNullish a.quidQuid then
      Except.error (PickError.missingField ("body must not be empty"))
    else if !zArrayOf zNumber a.quidQuid then
      Except.error (PickError.invalidType ("body must be an array of numbers"))
    else Except.ok a.quidQuid
  match key with
  | none => bodyCase
  | some k =>
    if k = "" then bodyCase
    else
      let value := a.quidQuid.lookup k
      let fullKeyName := a.pickFullkeyName k
      if isNullish value then
        .error (.missingField (fullKeyName ++ " must not be empty"))
      else if !zArrayOf zNumber value then
        .error (.invalidType (fullKeyName ++ " must be an array of numbers"))
      else .ok value

/-- `pickNumberArrayOptional(key)`: nullish field ⇒ `undefined`; else
delegate to `pickNumberArray(key)`. -/
def Quidquid.pickNumberArrayOptional (a : Quidquid) (key : String) :
    Except PickError (Option JVal) :=
  let value := a.quidQuid.lookup key
  if isNullish value then .ok none
  else (a.pickNumberArray (some key)).map some

/-- The elements of an array value: what the `value.map(...)` of the source
iterates over once `z.array(z.object(\x7b\x7d))` has accepted `value`. -/
def JVal.elems : JVal → List JVal
  | .arr xs => xs
  | _ => []

/-- `pickObjectArray(key?)`: validates against `z.array(z.object(\x7b\x7d))`
and on success wraps each element as `new Quidquid(element)` — a fresh
child with no parent key. -/
def Quidquid.pickObjectArray (a : Quidquid) (key : Option String) :
    Except PickError (List Quidquid) :=
  let bodyCase :=
    if isNullish a.quidQuid then
      Except.error (PickError.missingField ("body must not be empty"))
    else if !zArrayOf zObject a.quidQuid then
      Except.error (PickError.invalidType ("body must be an array of objects"))
    else Except.ok (a.quidQuid.elems.map fun v => Quidquid.mk v none)
  match key with
  | none => bodyCase
  | some k =>
    if k = "" then bodyCase
    else
      let fullKeyName := a.pickFullkeyName k
      let value := a.quidQuid.lookup k
      if isNullish value then
        .error (.missingField (fullKeyName ++ " must not be empty"))
      else if !zArrayOf zObject value then
        .error (.invalidType (fullKeyName ++ " must be an array of objects"))
      else .ok (value.elems.map fun v => Quidquid.mk v none)

/-- `pickObjectArrayOptional(key)`: nullish field ⇒ `undefined`; else
delegate to `pickObjectArray(key)`. -/
def Quidquid.pickObjectArrayOptional (a : Quidquid) (key : String) :
    Except PickError (Option (List Quidquid)) :=
  let value := a.quidQuid.lookup key
  if isNullish value then .ok none
  else (a.pickObjectArray (some key)).map some

example :
    (Quidquid.fromVal (.obj [("k", .str "v")])).pickString "k" = .ok (.str "v") := by
  rfl

example :
    (Quidquid.fromVal (.arr [.str "a", .str "b"])).pickStringArray none
      = .ok (.arr [.str "a", .str "b"]) := by
  rfl

example :
    (Quidquid.fromVal (.str "not-an-array")).pickStringArray none
      = .error (.invalidType ("body must be an array of strings")) := by
  rfl

example :
    (Quidquid.fromVal (.obj [("scores", .arr [.num 1, .str "x", .num 3])])).pickNumberArray
        (some "scores")
      = .error (.invalidType ("scores must be an array of numbers")) := by
  rfl

example :
    (Quidquid.fromVal (.arr [.obj [("x", .num 1)], .obj [("x", .num 2)]])).pickObjectArray none
      = .ok [Quidquid.mk (.obj [("x", .num 1)]) none, Quidquid.mk (.obj [("x", .num 2)]) none] := by
  rfl

example :
    (Quidquid.fromVal (.obj [("k", .num 0)])).pickString "k"
      = .error (.missingField ("k must not be empty")) := by
  rfl

example :
    (Quidquid.mk (.obj []) (some "b")).pickString "c"
      = .error (.missingField ("b.c must not be empty")) := by
  rfl

/-- The second class of the source file (lines 259-425): same private
fields, `get*`-named methods. -/
structure Quidquid2 : Type where
  quidQuid : JVal
  parentObjectKey : Option String

/-- The module-level `from(quidQuid)` factory of the second class. -/
def Quidquid2.fromVal (v : JVal) : Quidquid2 :=
  Quidquid2.mk v none

/-- `getFullkeyName(key)` of the second class. -/
def Quidquid2.getFullkeyName (a : Quidquid2) (key : String) : String :=
  match a.parentObjectKey with
  | none => key
  | some p => if p = "" then key else p ++ "." ++ key

/-- `getString(key)` of the second class. -/
def Quidquid2.getString (a : Quidquid2) (key : String) : Except PickError JVal :=
  let value := a.quidQuid.lookup key
  let fullKeyName := a.getFullkeyName key
  if !truthy value then .error (.missingField (fullKeyName ++ " must not be empty"))
  else if !zString value then .error (.invalidType (fullKeyName ++ " must be a string"))
  else .ok value

/-- `getStringOptional(key)` of the second class. -/
def Quidquid2.getStringOptional (a : Quidquid2) (key : String) :
    Except PickError (Option JVal) :=
  let value := a.quidQuid.lookup key
  if !truthy value then .ok none
  else (a.getString key).map some

/-- `getStringArray(key?)` of the second class. -/
def Quidquid2.getStringArray (a : Quidquid2) (key : Option String) :
    Except PickError JVal :=
  let bodyCase :=
    if isNullish a.quidQuid then
      Except.error (PickError.missingField ("body must not be empty"))
    else if !zArrayOf zString a.quidQuid then
      Except.error (PickError.invalidType ("body must be an array of strings"))
    else Except.ok a.quidQuid
  match key with
  | none => bodyCase
  | some k =>
    if k = "" then bodyCase
    else
      let fullKeyName := a.getFullkeyName k
      let value := a.quidQuid.lookup k
      if isNullish value then
        .error (.missingField (fullKeyName ++ " must not be empty"))
      else if !zArrayOf zString value then
        .error (.invalidType (fullKeyName ++ " must be an array of strings"))
      else .ok value

/-- `getStringArrayOptional(key)` of the second class. -/
def Quidquid2.getStringArrayOptional (a : Quidquid2) (key : String) :
    Except PickError (Option JVal) :=
  let value := a.quidQuid.lookup key
  if isNullish value then .ok none
  else (a.getStringArray (some key)).map some

/-- `getNumber(key)` of the second class. -/
def Quidquid2.getNumber (a : Quidquid2) (key : String) : Except PickError JVal :=
  let fullKeyName := a.getFullkeyName key
  let value := a.quidQuid.lookup key
  if isNullish value then .error (.missingField (fullKeyName ++ " must not be empty"))
  else if !zNumber value then .error (.invalidType (fullKeyName ++ " must be a number"))
  else .ok value

/-- `getNumberOptional(key)` of the second class. -/
def Quidquid2.getNumberOptional (a : Quidquid2) (key : String) :
    Except PickError (Option JVal) :=
  let value := a.quidQuid.lookup key
  if isNullish value then .ok none
  else (a.getNumber key).map some

/-- `getNumberArray(key?)` of the second class. -/
def Quidquid2.getNumberArray (a : Quidquid2) (key : Option String) :
    Except PickError JVal :=
  let bodyCase :=
    if isNullish a.quidQuid then
      Except.error (PickError.missingField ("body must not be empty"))
    else if !zArrayOf zNumber a.quidQuid then
      Except.error (PickError.invalidType ("body must be an array of numbers"))
    else Except.ok a.quidQuid
  match key with
  | none => bodyCase
  | some k =>
    if k = "" then bodyCase
    else
      let value := a.quidQuid.lookup k
      let fullKeyName := a.getFullkeyName k
      if isNullish value then
        .error (.missingField (fullKeyName ++ " must not be empty"))
      else if !zArrayOf zNumber value then
        .error (.invalidType (fullKeyName ++ " must be an array of numbers"))
      else .ok value

/-- `getNumberArrayOptional(key)` of the second class. -/
def Quidquid2.getNumberArrayOptional (a : Quidquid2) (key : String) :
    Except PickError (Option JVal) :=
  let value := a.quidQuid.lookup key
  if isNullish value then .ok none
  else (a.getNumberArray (some key)).map some

/-- `getBoolean(key)` of the second class. -/
def Quidquid2.getBoolean (a : Quidquid2) (key : String) : Except PickError JVal :=
  let fullKeyName := a.getFullkeyName key
  let value := a.quidQuid.lookup key
  if isNullish value then .error (.missingField (fullKeyName ++ " must not be empty"))
  else if !zBoolean value then .error (.invalidType (fullKeyName ++ " must be a boolean"))
  else .ok value

/-- `getBooleanOptional(key)` of the second class. -/
def Quidquid2.getBooleanOptional (a : Quidquid2) (key : String) :
    Except PickError (Option JVal) :=
  let value := a.quidQuid.lookup key
  if isNullish value then .ok none
  else (a.getBoolean key).map some

/-- `getObject(key)` of the second class; the child is again constructed
with the bare `key`. -/
def Quidquid2.getObject (a : Quidquid2) (key : String) : Except PickError Quidquid2 :=
  let fullKeyName := a.getFullkeyName key
  let value := a.quidQuid.lookup key
  if isNullish value then .error (.missingField (fullKeyName ++ " must not be empty"))
  else if !zObject value then .error (.invalidType (fullKeyName ++ " must be an object"))
  else .ok (Quidquid2.mk value (some key))

/-- `getObjectOptional(key)` of the second class. -/
def Quidquid2.getObjectOptional (a : Quidquid2) (key : String) :
    Except PickError (Option Quidquid2) :=
  let value := a.quidQuid.lookup key
  if isNullish value then .ok none
  else (a.getObject key).map some

/-- `getObjectArray(key?)` of the second class. -/
def Quidquid2.getObjectArray (a : Quidquid2) (key : Option String) :
    Except PickError (List Quidquid2) :=
  let bodyCase :=
    if isNullish a.quidQuid then
      Except.error (PickError.missingField ("body must not be empty"))
    else if !zArrayOf zObject a.quidQuid then
      Except.error (PickError.invalidType ("body must be an array of objects"))
    else Except.ok (a.quidQuid.elems.map fun v => Quidquid2.mk v none)
  match key with
  | none => bodyCase
  | some k =>
    if k = "" then bodyCase
    else
      let fullKeyName := a.getFullkeyName k
      let value := a.quidQuid.lookup k
      if isNullish value then
        .error (.missingField (fullKeyName ++ " must not be empty"))
      else if !zArrayOf zObject value then
        .error (.invalidType (fullKeyName ++ " must be an array of objects"))
      else .ok (value.elems.map fun v => Quidquid2.mk v none)

/-- `getObjectArrayOptional(key)` of the second class. -/
def Quidquid2.getObjectArrayOptional (a : Quidquid2) (key : String) :
    Except PickError (Option (List Quidquid2)) :=
  let value := a.quidQuid.lookup key
  if isNullish value then .ok none
  else (a.getObjectArray (some key)).map some

/-- The field-for-field correspondence between the two classes. -/
def toGet (a : Quidquid) : Quidquid2 :=
  Quidquid2.mk a.quidQuid a.parentObjectKey

/-- One accessor method call of the `pick*` class, with its argument. -/
inductive Call : Type where
  | string (key : String)
  | stringOptional (key : String)
  | stringArray (key : Option String)
  | stringArrayOptional (key : String)
  | number (key : String)
  | numberOptional (key : String)
  | numberArray (key : Option String)
  | numberArrayOptional (key : String)
  | boolean (key : String)
  | booleanOptional (key : String)
  | object (key : String)
  | objectOptional (key : String)
  | objectArray (key : Option String)
  | objectArrayOptional (key : String)

/-- The state of an accessor after one method call.  Every method body in
the source reads `this.quidQuid` and `this.parentObjectKey` but contains
no assignment to either, so each arm rebuilds the accessor from its two
(unmodified) fields. -/
def callState (a : Quidquid) (c : Call) : Quidquid :=
  match c with
  | .string _ => Quidquid.mk a.quidQuid a.parentObjectKey
  | .stringOptional _ => Quidquid.mk a.quidQuid a.parentObjectKey
  | .stringArray _ => Quidquid.mk a.quidQuid a.parentObjectKey
  | .stringArrayOptional _ => Quidquid.mk a.quidQuid a.parentObjectKey
  | .number _ => Quidquid.mk a.quidQuid a.parentObjectKey
  | .numberOptional _ => Quidquid.mk a.quidQuid a.parentObjectKey
  | .numberArray _ => Quidquid.mk a.quidQuid a.parentObjectKey
  | .numberArrayOptional _ => Quidquid.mk a.quidQuid a.parentObjectKey
  | .boolean _ => Quidquid.mk a.quidQuid a.parentObjectKey
  | .booleanOptional _ => Quidquid.mk a.quidQuid a.parentObjectKey
  | .object _ => Quidquid.mk a.quidQuid a.parentObjectKey
  | .objectOptional _ => Quidquid.mk a.quidQuid a.parentObjectKey
  | .objectArray _ => Quidquid.mk a.quidQuid a.parentObjectKey
  | .objectArrayOptional _ => Quidquid.mk a.quidQuid a.parentObjectKey

lemma callState_eq (a : Quidquid) (c : Call) : callState a c = a := by
  cases c <;> rfl

lemma getString_eq (a : Quidquid) (key : String) :
    (toGet a).getString key = a.pickString key := rfl

lemma getObject_eq (a : Quidquid) (key : String) :
    (toGet a).getObject key = (a.pickObject key).map toGet := by
  unfold Quidquid2.getObject Quidquid.pickObject
  dsimp [toGet, Quidquid2.getFullkeyName, Quidquid.pickFullkeyName]
  split
  · rfl
  · split <;> rfl

lemma getStringOptional_eq (a : Quidquid) (key : String) :
    (toGet a).getStringOptional key = a.pickStringOptional key := rfl

lemma getStringArray_eq (a : Quidquid) (key : Option String) :
    (toGet a).getStringArray key = a.pickStringArray key := rfl

lemma getStringArrayOptional_eq (a : Quidquid) (key : String) :
    (toGet a).getStringArrayOptional key = a.pickStringArrayOptional key := rfl

lemma getNumber_eq (a : Quidquid) (key : String) :
    (toGet a).getNumber key = a.pickNumber key := rfl

lemma getNumberOptional_eq (a : Quidquid) (key : String) :
    (toGet a).getNumberOptional key = a.pickNumberOptional key := rfl

lemma getNumberArray_eq (a : Quidquid) (key : Option String) :
    (toGet a).getNumberArray key = a.pickNumberArray key := rfl

lemma getNumberArrayOptional_eq (a : Quidquid) (key : String) :
    (toGet a).getNumberArrayOptional key = a.pickNumberArrayOptional key := rfl

lemma getBoolean_eq (a : Quidquid) (key : String) :
    (toGet a).getBoolean key = a.pickBoolean key := rfl

lemma getBooleanOptional_eq (a : Quidquid) (key : String) :
    (toGet a).getBooleanOptional key = a.pickBooleanOptional key := rfl

lemma toGet_quidQuid (a : Quidquid) : (toGet a).quidQuid = a.quidQuid := rfl

lemma toGet_fullKeyName (a : Quidquid) (key : String) :
    (toGet a).getFullkeyName key = a.pickFullkeyName key := rfl

lemma getObjectOptional_eq (a : Quidquid) (key : String) :
    (toGet a).getObjectOptional key
      = (a.pickObjectOptional key).map (Option.map toGet) := by
  simp only [Quidquid2.getObjectOptional, Quidquid.pickObjectOptional, toGet_quidQuid]
  split
  · rfl
  · rw [getObject_eq]
    cases a.pickObject key <;> rfl

lemma getObjectArray_eq (a : Quidquid) (key : Option String) :
    (toGet a).getObjectArray key
      = (a.pickObjectArray key).map (List.map toGet) := by
  cases key with
  | none =>
    simp only [Quidquid2.getObjectArray, Quidquid.pickObjectArray, toGet_quidQuid]
    split
    · rfl
    · split
      · rfl
      · simp [Except.map, List.map_map, toGet, Function.comp]
  | some k =>
    simp only [Quidquid2.getObjectArray, Quidquid.pickObjectArray, toGet_quidQuid,
      toGet_fullKeyName]
    split
    · split
      · rfl
      · split
        · rfl
        · simp [Except.map, List.map_map, toGet, Function.comp]
    · split
      · rfl
      · split
        · rfl
        · simp [Except.map, List.map_map, toGet, Function.comp]

lemma getObjectArrayOptional_eq (a : Quidquid) (key : String) :
    (toGet a).getObjectArrayOptional key
      = (a.pickObjectArrayOptional key).map (Option.map (List.map toGet)) := by
  simp only [Quidquid2.getObjectArrayOptional, Quidquid.pickObjectArrayOptional,
    toGet_quidQuid]
  split
  · rfl
  · rw [getObjectArray_eq]
    cases a.pickObjectArray (some key) <;> rfl

lemma fromVal_eq (v : JVal) : Quidquid2.fromVal v = toGet (Quidquid.fromVal v) := rfl

/-- Whether a result is a MissingField failure. -/
def isMissing {α : Type} : Except PickError α → Bool
  | .error (.missingField _) => true
  | _ => false

lemma isMissing_check {α : Type} (c1 c2 : Bool) (m1 m2 : String) (x : α) :
    isMissing (if c1 then Except.error (PickError.missingField m1)
               else if c2 then Except.error (PickError.invalidType m2)
               else Except.ok x) = c1 := by
  cases c1 <;> cases c2 <;> simp [isMissing]

lemma map_some_ne_ok_none {α : Type} (e : Except PickError α) :
    e.map some ≠ Except.ok none := by
  cases e <;> simp [Except.map]

/-- C1: evaluating the code on the nesting-depth-2 input.  `pickObject("a")`
on `\x7ba: \x7bb: \x7b\x7d\x7d\x7d` yields a child whose recorded parent key is the bare
`"a"`; `pickObject("b")` on that child yields a grandchild whose recorded
parent key is the bare `"b"` (not `"a.b"`); so `pickString("c")` on the
grandchild fails with the message `"b.c must not be empty"`, which does
not contain the dotted path `"a.b.c"` the claim requires. -/
theorem nested_path_truncated :
    (Quidquid.fromVal (.obj [("a", .obj [("b", .obj [])])])).pickObject "a"
      = .ok (Quidquid.mk (.obj [("b", .obj [])]) (some "a"))
    ∧ (Quidquid.mk (.obj [("b", .obj [])]) (some "a")).pickObject "b"
      = .ok (Quidquid.mk (.obj []) (some "b"))
    ∧ (Quidquid.mk (.obj []) (some "b")).pickString "c"
      = .error (.missingField ("b.c must not be empty"))
    ∧ some "b" ≠ some "a.b"
    ∧ ¬ ("a.b.c".data <:+: ("b.c must not be empty").data) :=
  ⟨rfl, rfl, rfl, by decide, by decide⟩

/-- C2: emptiness-policy asymmetry.  On an object wrapper, `pickString`
fails MissingField exactly on falsy field values (so also on `""`, `0`,
`false`, `NaN`), while `pickNumber`, `pickBoolean`, `pickObject` and the
keyed array accessors fail MissingField exactly on `undefined`/`null`;
`0`, `false`, the empty array and the empty object are accepted as valid
present values.  (Keyed array clauses assume a non-empty key: the source
routes an empty key to the keyless `"body"` branch.) -/
theorem emptiness_policy (a : Quidquid) (key : String)
    (hobj : isObjB a.quidQuid = true) :
    isMissing (a.pickString key) = !truthy (a.quidQuid.lookup key)
    ∧ isMissing (a.pickNumber key) = isNullish (a.quidQuid.lookup key)
    ∧ isMissing (a.pickBoolean key) = isNullish (a.quidQuid.lookup key)
    ∧ isMissing (a.pickObject key) = isNullish (a.quidQuid.lookup key)
    ∧ (key ≠ "" →
        isMissing (a.pickStringArray (some key)) = isNullish (a.quidQuid.lookup key))
    ∧ (key ≠ "" →
        isMissing (a.pickNumberArray (some key)) = isNullish (a.quidQuid.lookup key))
    ∧ (key ≠ "" →
        isMissing (a.pickObjectArray (some key)) = isNullish (a.quidQuid.lookup key))
    ∧ (a.quidQuid.lookup key = .num 0 → a.pickNumber key = .ok (.num 0))
    ∧ (a.quidQuid.lookup key = .bool false → a.pickBoolean key = .ok (.bool false))
    ∧ (key ≠ "" → a.quidQuid.lookup key = .arr [] →
        a.pickNumberArray (some key) = .ok (.arr []))
    ∧ (a.quidQuid.lookup key = .obj [] →
        a.pickObject key = .ok (Quidquid.mk (.obj []) (some key))) := by
  refine ⟨?_, ?_, ?_, ?_, ?_, ?_, ?_, ?_, ?_, ?_, ?_⟩
  · simp only [Quidquid.pickString]
    rw [isMissing_check]
  · simp only [Quidquid.pickNumber]
    rw [isMissing_check]
  · simp only [Quidquid.pickBoolean]
    rw [isMissing_check]
  · simp only [Quidquid.pickObject]
    rw [isMissing_check]
  · intro hk
    simp only [Quidquid.pickStringArray]
    rw [if_neg hk, isMissing_check]
  · intro hk
    simp only [Quidquid.pickNumberArray]
    rw [if_neg hk, isMissing_check]
  · intro hk
    simp only [Quidquid.pickObjectArray]
    rw [if_neg hk, isMissing_check]
  · intro h
    simp [Quidquid.pickNumber, h, isNullish, zNumber]
  · intro h
    simp [Quidquid.pickBoolean, h, isNullish, zBoolean]
  · intro hk h
    simp [Quidquid.pickNumberArray, hk, h, isNullish, zArrayOf]
  · intro h
    simp [Quidquid.pickObject, h, isNullish, zObject]

theorem emptiness_policy_witness :
    (Quidquid.fromVal (.obj [("k", .num 0)])).pickNumber "k" = .ok (.num 0) :=
  (emptiness_policy (Quidquid.fromVal (.obj [("k", .num 0)])) "k"
    rfl).2.2.2.2.2.2.2.1 rfl

/-- C3: each optional variant returns `undefined` exactly when the field
is absent under the emptiness policy (falsy for strings, nullish for the
others), and otherwise its result or failure is exactly that of the
required variant (so a present malformed value still fails InvalidType
through the delegation). -/
theorem optional_variants_delegate (a : Quidquid) (key : String)
    (hobj : isObjB a.quidQuid = true) :
    (a.pickStringOptional key = .ok none ↔ truthy (a.quidQuid.lookup key) = false)
    ∧ (truthy (a.quidQuid.lookup key) = true →
        a.pickStringOptional key = (a.pickString key).map some)
    ∧ (a.pickNumberOptional key = .ok none ↔ isNullish (a.quidQuid.lookup key) = true)
    ∧ (isNullish (a.quidQuid.lookup key) = false →
        a.pickNumberOptional key = (a.pickNumber key).map some)
    ∧ (a.pickBooleanOptional key = .ok none ↔ isNullish (a.quidQuid.lookup key) = true)
    ∧ (isNullish (a.quidQuid.lookup key) = false →
        a.pickBooleanOptional key = (a.pickBoolean key).map some)
    ∧ (a.pickObjectOptional key = .ok none ↔ isNullish (a.quidQuid.lookup key) = true)
    ∧ (isNullish (a.quidQuid.lookup key) = false →
        a.pickObjectOptional key = (a.pickObject key).map some)
    ∧ (a.pickStringArrayOptional key = .ok none ↔ isNullish (a.quidQuid.lookup key) = true)
    ∧ (isNullish (a.quidQuid.lookup key) = false →
        a.pickStringArrayOptional key = (a.pickStringArray (some key)).map some)
    ∧ (a.pickNumberArrayOptional key = .ok none ↔ isNullish (a.quidQuid.lookup key) = true)
    ∧ (isNullish (a.quidQuid.lookup key) = false →
        a.pickNumberArrayOptional key = (a.pickNumberArray (some key)).map some)
    ∧ (a.pickObjectArrayOptional key = .ok none ↔ isNullish (a.quidQuid.lookup key) = true)
    ∧ (isNullish (a.quidQuid.lookup key) = false →
        a.pickObjectArrayOptional key = (a.pickObjectArray (some key)).map some) := by
  refine ⟨?_, ?_, ?_, ?_, ?_, ?_, ?_, ?_, ?_, ?_, ?_, ?_, ?_, ?_⟩
  · unfold Quidquid.pickStringOptional
    cases htv : truthy (a.quidQuid.lookup key) <;>
      simp [htv, map_some_ne_ok_none]
  · intro h
    simp [Quidquid.pickStringOptional, h]
  · unfold Quidquid.pickNumberOptional
    cases hnv : isNullish (a.quidQuid.lookup key) <;>
      simp [hnv, map_some_ne_ok_none]
  · intro h
    simp [Quidquid.pickNumberOptional, h]
  · unfold Quidquid.pickBooleanOptional
    cases hnv : isNullish (a.quidQuid.lookup key) <;>
      simp [hnv, map_some_ne_ok_none]
  · intro h
    simp [Quidquid.pickBooleanOptional, h]
  · unfold Quidquid.pickObjectOptional
    cases hnv : isNullish (a.quidQuid.lookup key) <;>
      simp [hnv, map_some_ne_ok_none]
  · intro h
    simp [Quidquid.pickObjectOptional, h]
  · unfold Quidquid.pickStringArrayOptional
    cases hnv : isNullish (a.quidQuid.lookup key) <;>
      simp [hnv, map_some_ne_ok_none]
  · intro h
    simp [Quidquid.pickStringArrayOptional, h]
  · unfold Quidquid.pickNumberArrayOptional
    cases hnv : isNullish (a.quidQuid.lookup key) <;>
      simp [hnv, map_some_ne_ok_none]
  · intro h
    simp [Quidquid.pickNumberArrayOptional, h]
  · unfold Quidquid.pickObjectArrayOptional
    cases hnv : isNullish (a.quidQuid.lookup key) <;>
      simp [hnv, map_some_ne_ok_none]
  · intro h
    simp [Quidquid.pickObjectArrayOptional, h]

theorem optional_variants_delegate_witness :
    (Quidquid.fromVal (.obj [("k", .num 7)])).pickNumberOptional "k"
      = ((Quidquid.fromVal (.obj [("k", .num 7)])).pickNumber "k").map some :=
  (optional_variants_delegate (Quidquid.fromVal (.obj [("k", .num 7)])) "k"
    rfl).2.2.2.1 rfl

/-- C4 counterexample: the field `"k"` holds `0` — a present value of the
wrong kind by the absence definition of the claim itself (`undefined`/`null`, or
`""` for strings) — yet `pickString("k")` fails with MissingField
(`"k must not be empty"`), not with InvalidType (`"k must be a string"`):
the falsy check of the string accessor fires before type validation. -/
theorem pickString_zero_not_invalidType :
    (Quidquid.fromVal (.obj [("k", .num 0)])).pickString "k"
      = .error (.missingField ("k must not be empty"))
    ∧ (Quidquid.fromVal (.obj [("k", .num 0)])).pickString "k"
      ≠ .error (.invalidType ("k must be a string")) := by
  have h1 : (Quidquid.fromVal (.obj [("k", .num 0)])).pickString "k"
      = .error (.missingField ("k must not be empty")) := rfl
  refine ⟨h1, ?_⟩
  rw [h1]
  intro h
  injection h with h2
  exact PickError.noConfusion h2

/-- C4 (amended): the required-scalar contract with absence for strings
meaning any falsy field value (`undefined`, `null`, `""`, `0`, `false`,
`NaN`) rather than only `undefined`/`null`/`""`.  With that policy:
a present value of the correct kind is returned unchanged; an absent
field fails MissingField with the message `fullName ++ " must not be
empty"`; a present field of the wrong kind fails InvalidType with the
message `fullName ++ " must be a <kind>"`. -/
theorem required_scalar_contract (a : Quidquid) (key : String)
    (hobj : isObjB a.quidQuid = true) :
    (∀ s, a.quidQuid.lookup key = .str s → s ≠ "" →
        a.pickString key = .ok (.str s))
    ∧ (∀ n, a.quidQuid.lookup key = .num n → a.pickNumber key = .ok (.num n))
    ∧ (∀ b, a.quidQuid.lookup key = .bool b → a.pickBoolean key = .ok (.bool b))
    ∧ (truthy (a.quidQuid.lookup key) = false →
        a.pickString key
          = .error (.missingField (a.pickFullkeyName key ++ " must not be empty")))
    ∧ (isNullish (a.quidQuid.lookup key) = true →
        a.pickNumber key
          = .error (.missingField (a.pickFullkeyName key ++ " must not be empty")))
    ∧ (isNullish (a.quidQuid.lookup key) = true →
        a.pickBoolean key
          = .error (.missingField (a.pickFullkeyName key ++ " must not be empty")))
    ∧ (truthy (a.quidQuid.lookup key) = true →
        zString (a.quidQuid.lookup key) = false →
        a.pickString key
          = .error (.invalidType (a.pickFullkeyName key ++ " must be a string")))
    ∧ (isNullish (a.quidQuid.lookup key) = false →
        zNumber (a.quidQuid.lookup key) = false →
        a.pickNumber key
          = .error (.invalidType (a.pickFullkeyName key ++ " must be a number")))
    ∧ (isNullish (a.quidQuid.lookup key) = false →
        zBoolean (a.quidQuid.lookup key) = false →
        a.pickBoolean key
          = .error (.invalidType (a.pickFullkeyName key ++ " must be a boolean"))) := by
  refine ⟨?_, ?_, ?_, ?_, ?_, ?_, ?_, ?_, ?_⟩
  · intro s h hs
    simp [Quidquid.pickString, h, truthy, zString, hs]
  · intro n h
    simp [Quidquid.pickNumber, h, isNullish, zNumber]
  · intro b h
    simp [Quidquid.pickBoolean, h, isNullish, zBoolean]
  · intro h
    simp [Quidquid.pickString, h]
  · intro h
    simp [Quidquid.pickNumber, h]
  · intro h
    simp [Quidquid.pickBoolean, h]
  · intro h1 h2
    simp [Quidquid.pickString, h1, h2]
  · intro h1 h2
    simp [Quidquid.pickNumber, h1, h2]
  · intro h1 h2
    simp [Quidquid.pickBoolean, h1, h2]

theorem required_scalar_contract_witness :
    (Quidquid.fromVal (.obj [("k", .str "v")])).pickString "k" = .ok (.str "v") :=
  (required_scalar_contract (Quidquid.fromVal (.obj [("k", .str "v")])) "k"
    rfl).1 "v" rfl (by decide)

/-- C5: keyless `pickStringArray()` treats the wrapped value itself as
the array: a present array of strings is returned as-is; a nullish
wrapped value fails MissingField `"body must not be empty"`; a present
non-array-of-strings fails InvalidType `"body must be an array of
strings"` — the messages say `"body"` instead of a field name. -/
theorem keyless_string_array (a : Quidquid) :
    (∀ xs, a.quidQuid = .arr xs → xs.all zString = true →
        a.pickStringArray none = .ok (.arr xs))
    ∧ (isNullish a.quidQuid = true →
        a.pickStringArray none = .error (.missingField ("body must not be empty")))
    ∧ (isNullish a.quidQuid = false → zArrayOf zString a.quidQuid = false →
        a.pickStringArray none
          = .error (.invalidType ("body must be an array of strings"))) := by
  refine ⟨?_, ?_, ?_⟩
  · intro xs h hall
    simp [Quidquid.pickStringArray, h, isNullish, zArrayOf, hall]
  · intro h
    simp [Quidquid.pickStringArray, h]
  · intro h1 h2
    simp [Quidquid.pickStringArray, h1, h2]

theorem keyless_string_array_witness :
    (Quidquid.fromVal (.arr [.str "a", .str "b"])).pickStringArray none
        = .ok (.arr [.str "a", .str "b"])
    ∧ (Quidquid.fromVal (.str "not-an-array")).pickStringArray none
        = .error (.invalidType ("body must be an array of strings")) :=
  ⟨(keyless_string_array (Quidquid.fromVal (.arr [.str "a", .str "b"]))).1
      [.str "a", .str "b"] rfl rfl,
   (keyless_string_array (Quidquid.fromVal (.str "not-an-array"))).2.2 rfl rfl⟩

/-- C6: keyless `pickObjectArray()` on a wrapped array of objects returns
one fresh child per element, each wrapping its own element with no parent
key; on `[\x7bx:1\x7d,\x7bx:2\x7d]` calling `pickNumber("x")` on the two children returns `1`
and `2` with no path-prefix contamination. -/
theorem keyless_object_array_children (a : Quidquid) (xs : List JVal)
    (h : a.quidQuid = .arr xs) (hall : xs.all zObject = true) :
    a.pickObjectArray none = .ok (xs.map fun v => Quidquid.mk v none)
    ∧ (Quidquid.fromVal
          (.arr [.obj [("x", .num 1)], .obj [("x", .num 2)]])).pickObjectArray none
        = .ok [Quidquid.mk (.obj [("x", .num 1)]) none,
               Quidquid.mk (.obj [("x", .num 2)]) none]
    ∧ (Quidquid.mk (.obj [("x", .num 1)]) none).pickNumber "x" = .ok (.num 1)
    ∧ (Quidquid.mk (.obj [("x", .num 2)]) none).pickNumber "x" = .ok (.num 2) := by
  refine ⟨?_, rfl, rfl, rfl⟩
  simp [Quidquid.pickObjectArray, h, isNullish, zArrayOf, hall, JVal.elems]

theorem keyless_object_array_children_witness :
    (Quidquid.fromVal
        (.arr [.obj [("x", .num 1)], .obj [("x", .num 2)]])).pickObjectArray none
      = .ok [Quidquid.mk (.obj [("x", .num 1)]) none,
             Quidquid.mk (.obj [("x", .num 2)]) none] :=
  (keyless_object_array_children
    (Quidquid.fromVal (.arr [.obj [("x", .num 1)], .obj [("x", .num 2)]]))
    [.obj [("x", .num 1)], .obj [("x", .num 2)]] rfl rfl).2.1

/-- C7: mixed-kind arrays are rejected — whenever a present field fails
`z.array(z.number())` (in particular when one element is not a number),
the keyed `pickNumberArray` fails InvalidType with the message
`fullName ++ " must be an array of numbers"`; concretely on
`\x7bscores: [1,"x",3]\x7d` it reports `"scores must be an array of numbers"`. -/
theorem mixed_array_rejected (a : Quidquid) (key : String)
    (hobj : isObjB a.quidQuid = true) (hkey : key ≠ "")
    (hpresent : isNullish (a.quidQuid.lookup key) = false)
    (hbad : zArrayOf zNumber (a.quidQuid.lookup key) = false) :
    a.pickNumberArray (some key)
      = .error (.invalidType (a.pickFullkeyName key ++ " must be an array of numbers"))
    ∧ (Quidquid.fromVal
          (.obj [("scores", .arr [.num 1, .str "x", .num 3])])).pickNumberArray
        (some "scores")
      = .error (.invalidType ("scores must be an array of numbers")) := by
  refine ⟨?_, rfl⟩
  simp [Quidquid.pickNumberArray, hkey, hpresent, hbad]

theorem mixed_array_rejected_witness :
    (Quidquid.fromVal
        (.obj [("scores", .arr [.num 1, .str "x", .num 3])])).pickNumberArray
      (some "scores")
      = .error (.invalidType ("scores must be an array of numbers")) :=
  (mixed_array_rejected
    (Quidquid.fromVal (.obj [("scores", .arr [.num 1, .str "x", .num 3])]))
    "scores" rfl (by decide) rfl rfl).2

/-- C10: `pickStringOptional(key)` on a present but falsy non-string
field value — the number `0`, the boolean `false`, or `NaN` — returns
`undefined` instead of failing InvalidType: the falsiness test runs
before any type validation. -/
theorem optional_string_falsy_nonstring (a : Quidquid) (key : String)
    (h : a.quidQuid.lookup key = .num 0 ∨ a.quidQuid.lookup key = .bool false
        ∨ a.quidQuid.lookup key = .nan) :
    a.pickStringOptional key = .ok none := by
  rcases h with h | h | h <;> simp [Quidquid.pickStringOptional, h, truthy]

theorem optional_string_falsy_nonstring_witness :
    (Quidquid.fromVal (.obj [("k", .num 0)])).pickStringOptional "k" = .ok none :=
  optional_string_falsy_nonstring (Quidquid.fromVal (.obj [("k", .num 0)])) "k"
    (Or.inl rfl)

/-- C8: the two classes of the source are behaviorally equivalent.  Under
the field-for-field correspondence `toGet`, every `get*` method of the
second class returns exactly the result of the matching `pick*` method of
the first class — same values, same error kinds and messages — and the
two factories agree.  Methods returning accessors agree up to mapping
`toGet` over the result. -/
theorem pick_get_equivalent :
    ∀ (a : Quidquid) (key : String) (okey : Option String) (v : JVal),
      Quidquid2.fromVal v = toGet (Quidquid.fromVal v)
      ∧ (toGet a).getFullkeyName key = a.pickFullkeyName key
      ∧ (toGet a).getString key = a.pickString key
      ∧ (toGet a).getStringOptional key = a.pickStringOptional key
      ∧ (toGet a).getStringArray okey = a.pickStringArray okey
      ∧ (toGet a).getStringArrayOptional key = a.pickStringArrayOptional key
      ∧ (toGet a).getNumber key = a.pickNumber key
      ∧ (toGet a).getNumberOptional key = a.pickNumberOptional key
      ∧ (toGet a).getNumberArray okey = a.pickNumberArray okey
      ∧ (toGet a).getNumberArrayOptional key = a.pickNumberArrayOptional key
      ∧ (toGet a).getBoolean key = a.pickBoolean key
      ∧ (toGet a).getBooleanOptional key = a.pickBooleanOptional key
      ∧ (toGet a).getObject key = (a.pickObject key).map toGet
      ∧ (toGet a).getObjectOptional key = (a.pickObjectOptional key).map (Option.map toGet)
      ∧ (toGet a).getObjectArray okey = (a.pickObjectArray okey).map (List.map toGet)
      ∧ (toGet a).getObjectArrayOptional key
          = (a.pickObjectArrayOptional key).map (Option.map (List.map toGet)) :=
  fun a key okey v =>
    ⟨fromVal_eq v, toGet_fullKeyName a key, getString_eq a key,
     getStringOptional_eq a key, getStringArray_eq a okey,
     getStringArrayOptional_eq a key, getNumber_eq a key,
     getNumberOptional_eq a key, getNumberArray_eq a okey,
     getNumberArrayOptional_eq a key, getBoolean_eq a key,
     getBooleanOptional_eq a key, getObject_eq a key,
     getObjectOptional_eq a key, getObjectArray_eq a okey,
     getObjectArrayOptional_eq a key⟩

/-- C9: immutability frame.  No accessor method body assigns to the
wrapped value or the parent key, so the state of an accessor after any
sequence of method calls (including the child-creating `pickObject` and
`pickObjectArray` calls) is exactly its state at construction. -/
theorem accessor_state_constant (a : Quidquid) (cs : List Call) :
    cs.foldl callState a = a := by
  induction cs with
  | nil => rfl
  | cons c cs ih =>
    rw [List.foldl_cons, callState_eq]
    exact ih
